import Mathlib

/-! Certificate Transparency log front end: submission and signing.

A shallow embedding of `src/log/frontend_signer.cc` (the `FrontendSigner`
class) together with a model of the certificate-chain classes exercised by
`src/log/cert_test.cc`.

Conventions of the embedding:

* `assert(c)` is the checked assertion of `<assert.h>`: when `c` is false the
  call stops there and returns nothing.  A call therefore ends in
  `Except.ok outcome` or in `Except.error site`, `site` naming the assertion.
* The collaborators the class only holds pointers to (submission handler, log
  store, signer, clock, digest, protobuf codec) are parameters, gathered in
  `Collaborators`.
* The mutable state a call can touch is passed explicitly (`World`), and every
  call of the store, the clock and the signer is recorded in `Run.calls`.
-/

set_option autoImplicit false

/-- Byte strings: `bstring` in the sources. -/
abbrev bstring : Type := List (Fin 256)

/-! ## Protocol buffer messages (`ct.pb.h`) -/

/-- Entry-type discriminant, `CertificateEntry::Type` in the sources. -/
inductive CertificateEntry.EntryType where
  | X509_ENTRY
  | PRECERT_ENTRY
  deriving DecidableEq, Repr

/-- Modelled from the spec: `ct.pb.h` is generated code that is not among the
sources.  The entry carries the entry-type discriminant and the leaf
certificate bytes, both of which `frontend_signer.cc` accesses, and whatever
else the handler stores of the chain (its tail). -/
structure CertificateEntry where
  type : CertificateEntry.EntryType
  leaf_certificate : bstring
  intermediates : List bstring
  deriving DecidableEq, Repr

/-- Modelled from the spec: the signed receipt of `ct.pb.h`, all of whose
fields are optional: timestamp in milliseconds, the entry, the signature.  A
default-constructed message has no field set. -/
structure SignedCertificateTimestamp where
  timestamp : Option Nat
  entry : Option CertificateEntry
  signature : Option bstring
  deriving DecidableEq, Repr

/-! ## Enumerations of the collaborators -/

/-- Results of `SubmissionHandler::ProcessSubmission`.  The seven enumerators
named in `frontend_signer.cc`; `other` stands for any further enumerator of
the declaration (which is not among the sources), the ones the `default:`
branch of `GetSubmitError` is written for. -/
inductive SubmissionHandler.SubmitResult where
  | OK
  | EMPTY_SUBMISSION
  | INVALID_PEM_ENCODED_CHAIN
  | SUBMISSION_TOO_LONG
  | INVALID_CERTIFICATE_CHAIN
  | UNKNOWN_ROOT
  | PRECERT_CHAIN_NOT_WELL_FORMED
  | other (code : Nat)
  deriving DecidableEq, Repr

/-- Status codes of the log store, `LogDB::Status`: the four named in
`frontend_signer.cc`, and `other` for any further enumerator. -/
inductive LogDB.Status where
  | LOGGED
  | PENDING
  | NEW
  | NOT_FOUND
  | other (code : Nat)
  deriving DecidableEq, Repr

/-- Lookup mode of `LogDB::LookupEntry`; the front end only ever passes
`LogDB::ANY`. -/
inductive LogDB.Lookup where
  | ANY
  deriving DecidableEq, Repr

/-- Results of `LogSigner::SignCertificateTimestamp`: `OK`, and `other` for
every failure code. -/
inductive LogSigner.SignResult where
  | OK
  | other (code : Nat)
  deriving DecidableEq, Repr

/-- Outcomes of a submission, `FrontendSigner::SubmitResult`: the eight cases
of the switch in `SubmitResultString`. -/
inductive FrontendSigner.SubmitResult where
  | LOGGED
  | PENDING
  | NEW
  | BAD_PEM_FORMAT
  | SUBMISSION_TOO_LONG
  | CERTIFICATE_VERIFY_ERROR
  | PRECERT_CHAIN_NOT_WELL_FORMED
  | UNKNOWN_ERROR
  deriving DecidableEq, Repr

/-! ## Collaborators and state -/

/-- Modelled from the spec: `serial_hasher.h` is not among the sources.  A
stateful reset/update/finalize digest producer; its state is the bytes
absorbed since the last reset. -/
structure Sha256Hasher where
  absorbed : bstring
  deriving DecidableEq, Repr

/-- The collaborators of a `FrontendSigner`, none of which is implemented in
the sources; `σ` is the state of the log store.

* `ProcessSubmission data entry` is the handler's verdict and the entry as the
  handler leaves it (`entry` is passed by pointer, with its type already set).
* `Sha256` is the digest computed by the hasher over the absorbed bytes.
* `LookupEntry db key mode` is the status and the content of the output
  string `record` after the call.
* `WriteEntry db key record` is the acknowledgment and the store afterwards.
* `SignCertificateTimestamp sct` is the signer's result and the message as
  the signer leaves it (passed by pointer).
* `TimeInMilliseconds i` is the clock reading number `i`.
* `ParseFromString` and `SerializeToString` are the protobuf codec of
  `SignedCertificateTimestamp`; parsing reports success and leaves a message
  that does not depend on what the message held before. -/
structure Collaborators (σ : Type) where
  ProcessSubmission : bstring → CertificateEntry →
    SubmissionHandler.SubmitResult × CertificateEntry
  Sha256 : bstring → bstring
  LookupEntry : σ → bstring → LogDB.Lookup → LogDB.Status × bstring
  WriteEntry : σ → bstring → bstring → LogDB.Status × σ
  SignCertificateTimestamp : SignedCertificateTimestamp →
    LogSigner.SignResult × SignedCertificateTimestamp
  TimeInMilliseconds : Nat → Nat
  ParseFromString : bstring → Bool × SignedCertificateTimestamp
  SerializeToString : SignedCertificateTimestamp → bstring

/-- The state a call of the front end can read or change: the store behind
`db_`, the hasher behind `hasher_`, and the number of clock readings taken. -/
structure World (σ : Type) where
  db : σ
  hasher : Sha256Hasher
  ticks : Nat

/-- A call of a collaborator with an effect or a cost, as recorded in the
order the calls are made. -/
inductive Call where
  | LookupEntry (key : bstring)
  | WriteEntry (key : bstring) (record : bstring)
  | TimeInMilliseconds
  | SignCertificateTimestamp (sct : SignedCertificateTimestamp)
  deriving DecidableEq, Repr

/-- The assertions of `frontend_signer.cc` that a call can stop at. -/
inductive Abort where
  /-- The assertion `assert(!primary_key.empty())`. -/
  | primary_key_empty
  /-- The assertion `assert(status == LogDB::NOT_FOUND)`. -/
  | lookup_status
  /-- The assertion `assert(ret == LogSigner::OK)`. -/
  | sign_result
  /-- The assertion `assert(status == LogDB::NEW)`. -/
  | write_status
  /-- The `assert(false)` in the default branch of `GetSubmitError`. -/
  | submit_error_default
  deriving DecidableEq, Repr

deriving instance DecidableEq for Except

/-- What a call of `QueueEntry` leaves behind: the returned outcome (or the
assertion it stopped at), the caller's receipt (`none` for a null pointer),
the state, and the collaborator calls made. -/
structure Run (σ : Type) where
  result : Except Abort FrontendSigner.SubmitResult
  sct : Option SignedCertificateTimestamp
  world : World σ
  calls : List Call

namespace Sha256Hasher

/-- Forget what was absorbed. -/
def Reset (_h : Sha256Hasher) : Sha256Hasher := ⟨[]⟩

/-- Absorb `data` after what was absorbed before. -/
def Update (h : Sha256Hasher) (data : bstring) : Sha256Hasher := ⟨h.absorbed ++ data⟩

/-- Finish: the digest of what was absorbed; the hasher starts afresh. -/
def Final (digest : bstring → bstring) (h : Sha256Hasher) : bstring × Sha256Hasher :=
  (digest h.absorbed, ⟨[]⟩)

end Sha256Hasher

/-- The value a natural number has as a `uint64_t`. -/
def toUInt64 (n : Nat) : Nat := n % 2 ^ 64

/-- A default-constructed `SignedCertificateTimestamp`. -/
def SignedCertificateTimestamp.empty : SignedCertificateTimestamp :=
  { timestamp := none, entry := none, signature := none }

/-- A default-constructed `CertificateEntry` after `set_type(type)`. -/
def CertificateEntry.ofType (type : CertificateEntry.EntryType) : CertificateEntry :=
  { type := type, leaf_certificate := [], intermediates := [] }

namespace Call

/-- Is the call a `LogDB::LookupEntry`? -/
def isLookup : Call → Bool
  | LookupEntry _ => true
  | _ => false

/-- Is the call a `LogDB::WriteEntry`? -/
def isWrite : Call → Bool
  | WriteEntry _ _ => true
  | _ => false

/-- Is the call a clock reading? -/
def isClock : Call → Bool
  | TimeInMilliseconds => true
  | _ => false

/-- Is the call a signing request? -/
def isSign : Call → Bool
  | SignCertificateTimestamp _ => true
  | _ => false

end Call

namespace FrontendSigner

variable {σ : Type}

/-- Method `FrontendSigner::GetSubmitError` (lines 142-164): the switch over the
handler's result, `submit_result` starting as `UNKNOWN_ERROR`; the default
branch is `assert(false)`. -/
def GetSubmitError : SubmissionHandler.SubmitResult → Except Abort SubmitResult
  | .EMPTY_SUBMISSION => .ok .BAD_PEM_FORMAT
  | .INVALID_PEM_ENCODED_CHAIN => .ok .BAD_PEM_FORMAT
  | .SUBMISSION_TOO_LONG => .ok .SUBMISSION_TOO_LONG
  | .INVALID_CERTIFICATE_CHAIN => .ok .CERTIFICATE_VERIFY_ERROR
  | .UNKNOWN_ROOT => .ok .CERTIFICATE_VERIFY_ERROR
  | .PRECERT_CHAIN_NOT_WELL_FORMED => .ok .PRECERT_CHAIN_NOT_WELL_FORMED
  | .OK => .error .submit_error_default
  | .other _ => .error .submit_error_default

/-- Method `FrontendSigner::ComputePrimaryKey` (lines 126-131): reset the shared
hasher, absorb the leaf certificate, finish.  Returns the key and the hasher
afterwards. -/
def ComputePrimaryKey (c : Collaborators σ) (hasher : Sha256Hasher)
    (entry : CertificateEntry) : bstring × Sha256Hasher :=
  let h1 := hasher.Reset
  let h2 := h1.Update entry.leaf_certificate
  h2.Final c.Sha256

/-- Method `FrontendSigner::TimestampAndSign` (lines 133-139): set the timestamp to
the clock reading (a `uint64_t`), have the signer sign the message in place,
and assert that it reported `OK`.  Returns the message as the signer left it
(or the failed assertion), the state and the calls made. -/
def TimestampAndSign (c : Collaborators σ) (w : World σ)
    (sct : SignedCertificateTimestamp) :
    Except Abort SignedCertificateTimestamp × World σ × List Call :=
  let now := toUInt64 (c.TimeInMilliseconds w.ticks)
  let w1 : World σ := { w with ticks := w.ticks + 1 }
  let sct1 : SignedCertificateTimestamp := { sct with timestamp := some now }
  let ret := c.SignCertificateTimestamp sct1
  let calls := [Call.TimeInMilliseconds, Call.SignCertificateTimestamp sct1]
  if ret.1 = LogSigner.SignResult.OK then (.ok ret.2, w1, calls)
  else (.error .sign_result, w1, calls)

/-- Method `FrontendSigner::QueueEntry(type, data, sct)` (lines 46-87).  `sct` is the
caller's receipt: `none` for a null pointer, `some s` for a message holding
`s`. -/
def QueueEntry (c : Collaborators σ) (w : World σ) (type : CertificateEntry.EntryType)
    (data : bstring) (sct : Option SignedCertificateTimestamp) : Run σ :=
  -- Verify the submission and compute signed and unsigned parts.
  let handled := c.ProcessSubmission data (CertificateEntry.ofType type)
  let result := handled.1
  let entry := handled.2
  if result ≠ SubmissionHandler.SubmitResult.OK then
    { result := GetSubmitError result, sct := sct, world := w, calls := [] }
  else
    -- Check if the entry already exists.
    let keyed := ComputePrimaryKey c w.hasher entry
    let primary_key := keyed.1
    let w1 : World σ := { w with hasher := keyed.2 }
    if primary_key = [] then
      { result := .error .primary_key_empty, sct := sct, world := w1, calls := [] }
    else
      let found := c.LookupEntry w1.db primary_key LogDB.Lookup.ANY
      let status := found.1
      let record := found.2
      let calls1 := [Call.LookupEntry primary_key]
      if status = LogDB.Status.LOGGED ∨ status = LogDB.Status.PENDING then
        let sct1 := sct.map (fun _ => (c.ParseFromString record).2)
        if status = LogDB.Status.LOGGED then
          { result := .ok .LOGGED, sct := sct1, world := w1, calls := calls1 }
        else
          { result := .ok .PENDING, sct := sct1, world := w1, calls := calls1 }
      else if status ≠ LogDB.Status.NOT_FOUND then
        { result := .error .lookup_status, sct := sct, world := w1, calls := calls1 }
      else
        let local_sct : SignedCertificateTimestamp :=
          { SignedCertificateTimestamp.empty with entry := some entry }
        let signed := TimestampAndSign c w1 local_sct
        let w2 := signed.2.1
        let calls2 := calls1 ++ signed.2.2
        match signed.1 with
        | .error site => { result := .error site, sct := sct, world := w2, calls := calls2 }
        | .ok local_sct1 =>
          let record1 := c.SerializeToString local_sct1
          let written := c.WriteEntry w2.db primary_key record1
          let w3 : World σ := { w2 with db := written.2 }
          let calls3 := calls2 ++ [Call.WriteEntry primary_key record1]
          -- Assume for now that nobody interfered while we were busy signing.
          if written.1 ≠ LogDB.Status.NEW then
            { result := .error .write_status, sct := sct, world := w3, calls := calls3 }
          else
            { result := .ok .NEW, sct := sct.map (fun _ => local_sct1), world := w3,
              calls := calls3 }

/-- Method `FrontendSigner::QueueEntry(data, sct)` (lines 40-44): an ordinary
certificate submission. -/
def QueueEntryX509 (c : Collaborators σ) (w : World σ) (data : bstring)
    (sct : Option SignedCertificateTimestamp) : Run σ :=
  QueueEntry c w CertificateEntry.EntryType.X509_ENTRY data sct

/-- The receipt a fresh submission of `entry` gets in state `w`: the signer's
output on the message holding the entry and the clock reading. -/
def freshReceipt (c : Collaborators σ) (w : World σ) (entry : CertificateEntry) :
    SignedCertificateTimestamp :=
  (c.SignCertificateTimestamp
    { timestamp := some (toUInt64 (c.TimeInMilliseconds w.ticks)),
      entry := some entry, signature := none }).2

end FrontendSigner

/-! ## The contracts of the collaborators -/

/-- The contract of the log store (a key/value store answering `NOT_FOUND`,
`PENDING` or `LOGGED` to a lookup and `NEW` to an accepted write):

* `accept`: a write under a key the store reports as absent is acknowledged
  as `NEW`;
* `readback`: after a write acknowledged as `NEW`, a lookup of that key
  answers `LOGGED` or `PENDING` and hands back the bytes written;
* `frame`: a write under one key leaves the lookups of every other key as
  they were. -/
structure StoreContract {σ : Type} (c : Collaborators σ) : Prop where
  accept : ∀ db key record,
    (c.LookupEntry db key LogDB.Lookup.ANY).1 = LogDB.Status.NOT_FOUND →
    (c.WriteEntry db key record).1 = LogDB.Status.NEW
  readback : ∀ db key record,
    (c.WriteEntry db key record).1 = LogDB.Status.NEW →
    ∃ st, (st = LogDB.Status.LOGGED ∨ st = LogDB.Status.PENDING) ∧
      c.LookupEntry (c.WriteEntry db key record).2 key LogDB.Lookup.ANY = (st, record)
  frame : ∀ db key record other,
    other ≠ key →
    c.LookupEntry (c.WriteEntry db key record).2 other LogDB.Lookup.ANY
      = c.LookupEntry db other LogDB.Lookup.ANY

/-- The signer accepts the message the front end builds for `entry` in state
`w` and writes nothing but the signature: timestamp and entry are as they
were handed over. -/
def SignerAccepts {σ : Type} (c : Collaborators σ) (w : World σ)
    (entry : CertificateEntry) : Prop :=
  (c.SignCertificateTimestamp
      { timestamp := some (toUInt64 (c.TimeInMilliseconds w.ticks)),
        entry := some entry, signature := none }).1 = LogSigner.SignResult.OK
  ∧ (FrontendSigner.freshReceipt c w entry).timestamp
      = some (toUInt64 (c.TimeInMilliseconds w.ticks))
  ∧ (FrontendSigner.freshReceipt c w entry).entry = some entry

/-! ## A concrete set of collaborators

A small in-memory log store and simple stand-ins for the handler, the digest,
the signer, the clock and the codec, on which the statements below are
evaluated. -/

/-- Modelled from the spec: `log_db.h` is not among the sources.  An
in-memory key/value store: each key holds a finalized flag and the record
bytes. -/
abbrev MemoryStore : Type := List (bstring × Bool × bstring)

namespace MemoryStore

/-- The flag and bytes held under `key`, if any. -/
def get : MemoryStore → bstring → Option (Bool × bstring)
  | [], _ => none
  | (k, v) :: rest, key => if k = key then some v else get rest key

/-- The status a held record is reported with. -/
def statusOf (finalized : Bool) : LogDB.Status :=
  if finalized then LogDB.Status.LOGGED else LogDB.Status.PENDING

/-- Lookup: `LOGGED` or `PENDING` with the bytes held, else `NOT_FOUND`. -/
def LookupEntry (db : MemoryStore) (key : bstring) (_mode : LogDB.Lookup) :
    LogDB.Status × bstring :=
  match db.get key with
  | some v => (statusOf v.1, v.2)
  | none => (LogDB.Status.NOT_FOUND, [])

/-- Write: a new pending record under an absent key, acknowledged `NEW`; an
occupied key is left alone and its status reported. -/
def WriteEntry (db : MemoryStore) (key record : bstring) : LogDB.Status × MemoryStore :=
  match db.get key with
  | some v => (statusOf v.1, db)
  | none => (LogDB.Status.NEW, (key, false, record) :: db)

end MemoryStore

namespace Demo

/-- A handler that rejects empty input and input of more than four bytes, and
otherwise takes the first two bytes as the leaf certificate and the rest as
the chain tail. -/
def ProcessSubmission (data : bstring) (entry : CertificateEntry) :
    SubmissionHandler.SubmitResult × CertificateEntry :=
  if data = [] then (SubmissionHandler.SubmitResult.EMPTY_SUBMISSION, entry)
  else if 4 < data.length then (SubmissionHandler.SubmitResult.SUBMISSION_TOO_LONG, entry)
  else (SubmissionHandler.SubmitResult.OK,
        { entry with leaf_certificate := data.take 2, intermediates := [data.drop 2] })

/-- A stand-in digest: injective and never empty. -/
def digest (data : bstring) : bstring := 83 :: data

/-- A signer that refuses a message without timestamp or entry and otherwise
sets the signature (here: the low timestamp byte, then the leaf bytes). -/
def SignCertificateTimestamp (sct : SignedCertificateTimestamp) :
    LogSigner.SignResult × SignedCertificateTimestamp :=
  match sct.timestamp, sct.entry with
  | some t, some e =>
    (LogSigner.SignResult.OK,
      { sct with signature := some (Fin.ofNat t :: e.leaf_certificate) })
  | _, _ => (LogSigner.SignResult.other 1, sct)

/-- A clock that advances by one millisecond per reading. -/
def TimeInMilliseconds (i : Nat) : Nat := 1000 + i

/-- An optional field: tag byte, then length byte and content. -/
def encField : Option bstring → bstring
  | none => [0]
  | some b => 1 :: Fin.ofNat b.length :: b

/-- Read one optional field off the front of the bytes. -/
def decField : bstring → Option (Option bstring × bstring)
  | [] => none
  | tag :: rest =>
    if tag.val = 0 then some (none, rest)
    else match rest with
      | [] => none
      | n :: body =>
        if n.val ≤ body.length then some (some (body.take n.val), body.drop n.val)
        else none

/-- Read fields until the bytes run out (`fuel` bounds the number read). -/
def decFields : Nat → bstring → Option (List bstring)
  | 0, _ => none
  | _ + 1, [] => some []
  | fuel + 1, bytes =>
    match decField bytes with
    | some (some b, rest) => (decFields fuel rest).map (fun bs => b :: bs)
    | _ => none

/-- Eight bytes, least significant first. -/
def natBytes (n : Nat) : bstring :=
  (List.range 8).map (fun i => Fin.ofNat (n / 256 ^ i))

/-- The number a little-endian byte string stands for. -/
def bytesNat (b : bstring) : Nat :=
  b.foldr (fun byte acc => byte.val + 256 * acc) 0

/-- The bytes of an entry: type byte, leaf field, tail fields. -/
def entryBytes (e : CertificateEntry) : bstring :=
  (match e.type with
    | CertificateEntry.EntryType.X509_ENTRY => 0
    | CertificateEntry.EntryType.PRECERT_ENTRY => 1)
  :: ((e.leaf_certificate :: e.intermediates).map (fun b => encField (some b))).flatten

/-- Read an entry back from its bytes. -/
def bytesEntry : bstring → Option CertificateEntry
  | [] => none
  | t :: rest =>
    match decFields (rest.length + 1) rest with
    | some (leaf :: tail) =>
      some { type := if t.val = 0 then CertificateEntry.EntryType.X509_ENTRY
                     else CertificateEntry.EntryType.PRECERT_ENTRY,
             leaf_certificate := leaf, intermediates := tail }
    | _ => none

/-- Serialize a receipt: timestamp, entry and signature as three fields. -/
def SerializeToString (s : SignedCertificateTimestamp) : bstring :=
  encField (s.timestamp.map natBytes) ++ encField (s.entry.map entryBytes)
    ++ encField s.signature

/-- Parse a receipt; on malformed bytes report failure and leave the message
empty. -/
def ParseFromString (bytes : bstring) : Bool × SignedCertificateTimestamp :=
  match decField bytes with
  | none => (false, SignedCertificateTimestamp.empty)
  | some (ts, rest1) =>
    match decField rest1 with
    | none => (false, SignedCertificateTimestamp.empty)
    | some (en, rest2) =>
      match decField rest2 with
      | some (sig, []) =>
        (match en with
          | none => (true, { timestamp := ts.map bytesNat, entry := none, signature := sig })
          | some eb =>
            match bytesEntry eb with
            | some e =>
              (true, { timestamp := ts.map bytesNat, entry := some e, signature := sig })
            | none => (false, SignedCertificateTimestamp.empty))
      | _ => (false, SignedCertificateTimestamp.empty)

/-- The concrete collaborators over the in-memory store. -/
def collab : Collaborators MemoryStore :=
  { ProcessSubmission := ProcessSubmission
    Sha256 := digest
    LookupEntry := MemoryStore.LookupEntry
    WriteEntry := MemoryStore.WriteEntry
    SignCertificateTimestamp := SignCertificateTimestamp
    TimeInMilliseconds := TimeInMilliseconds
    ParseFromString := ParseFromString
    SerializeToString := SerializeToString }

/-- The same collaborators with a store whose lookup answers with a status
outside `NOT_FOUND`, `PENDING`, `LOGGED`. -/
def collabBadLookup : Collaborators MemoryStore :=
  { collab with LookupEntry := fun _ _ _ => (LogDB.Status.other 0, []) }

/-- The same collaborators with a store that refuses every write as if the
key had become occupied since the lookup. -/
def collabBadWrite : Collaborators MemoryStore :=
  { collab with WriteEntry := fun db _ _ => (LogDB.Status.LOGGED, db) }

/-- An empty store, a hasher that has absorbed nothing, no clock reading
taken. -/
def world0 : World MemoryStore := { db := [], hasher := ⟨[]⟩, ticks := 0 }

/-- A receipt the caller holds before the call. -/
def stale : SignedCertificateTimestamp :=
  { timestamp := some 5, entry := none, signature := some [9] }

end Demo


/-! ## Certificates and chains (`cert.h`)

`cert_test.cc` exercises the classes `Cert`, `CertChain` and `ProtoCertChain`,
whose implementation is not among the sources. -/

/-- Object identifiers, as the sequence of their arcs. -/
abbrev Oid : Type := List Nat

/-- A PEM text, as the sequence of its certificate blocks in document order;
concatenating PEM texts appends the sequences, the empty text has no block. -/
abbrev PemText : Type := List bstring

/-- Modelled from the spec: the decoded form of a certificate, as far as the
queries of `Cert` look into it: subject and issuer names, public key,
signature, the extensions present with their critical flag, and the purposes
listed by the extended-key-usage extension. -/
structure X509 where
  subject : bstring
  issuer : bstring
  publicKey : bstring
  signature : bstring
  extensions : List (Oid × Bool)
  extendedKeyUsage : List Oid
  deriving DecidableEq, Repr

/-- The X.509 library the certificate classes rest on (an external
collaborator): decoding of one PEM block, verification of the signature of
one certificate under the public key of another, and the two object
identifiers `Cert::kPoisonExtensionOID` and `Cert::kCtExtendedKeyUsageOID`. -/
structure X509Library where
  decode : bstring → Option X509
  verify : X509 → X509 → Bool
  kPoisonExtensionOID : Oid
  kCtExtendedKeyUsageOID : Oid

/-- Modelled from the spec: class `Cert` of `cert.h`, one parsed certificate;
`none` when the PEM text did not parse (the certificate is not loaded). -/
structure Cert where
  x509 : Option X509
  deriving DecidableEq, Repr

namespace Cert

/-- Modelled from the spec: `Load(pem_text)` parses exactly the first
certificate block; malformed or empty input yields an unloaded instance. -/
def Load (lib : X509Library) (pem : PemText) : Cert :=
  match pem with
  | [] => ⟨none⟩
  | block :: _ => ⟨lib.decode block⟩

/-- Modelled from the spec: loadedness is queried explicitly. -/
def IsLoaded (c : Cert) : Bool := c.x509.isSome

/-- Modelled from the spec: extension presence by identifier; false on an
unloaded certificate. -/
def HasExtension (c : Cert) (id : Oid) : Bool :=
  match c.x509 with
  | none => false
  | some x => x.extensions.any (fun e => decide (e.1 = id))

/-- Modelled from the spec: extension criticality by identifier (present and
marked critical); false on an unloaded certificate. -/
def IsCriticalExtension (c : Cert) (id : Oid) : Bool :=
  match c.x509 with
  | none => false
  | some x => x.extensions.any (fun e => decide (e.1 = id) && e.2)

/-- Modelled from the spec: true iff the extended-key-usage extension lists
the given purpose. -/
def HasExtendedKeyUsage (c : Cert) (oid : Oid) : Bool :=
  match c.x509 with
  | none => false
  | some x => x.extendedKeyUsage.any (fun u => decide (u = oid))

/-- Modelled from the spec: true iff this certificate's issuer name matches
the subject name of `other` (no cryptographic verification); false when
either is not loaded. -/
def IsIssuedBy (c other : Cert) : Bool :=
  match c.x509, other.x509 with
  | some a, some b => decide (a.issuer = b.subject)
  | _, _ => false

/-- Modelled from the spec: true iff `IsIssuedBy` holds and this
certificate's signature verifies under the public key of `other`. -/
def IsSignedBy (lib : X509Library) (c other : Cert) : Bool :=
  c.IsIssuedBy other &&
    match c.x509, other.x509 with
    | some a, some b => lib.verify a b
    | _, _ => false

end Cert

/-- Modelled from the spec: class `CertChain` of `cert.h`, an ordered sequence
of certificates: index 0 is the leaf, each later one is expected to be the
issuer of the one before. -/
structure CertChain where
  chain : List Cert
  deriving DecidableEq, Repr

namespace CertChain

/-- Does `r` hold of every adjacent pair `(i, i+1)` of the sequence? -/
def adjacent (r : Cert → Cert → Bool) : List Cert → Bool
  | a :: b :: rest => r a b && adjacent r (b :: rest)
  | _ => true

/-- Modelled from the spec: construction from a PEM bundle: every block, in
document order, contributes one certificate. -/
def ofPem (lib : X509Library) (pem : PemText) : CertChain :=
  ⟨pem.map (fun block => Cert.Load lib [block])⟩

/-- Modelled from the spec: `AddCert` appends a certificate to the end of the
sequence and does not re-validate the chain. -/
def AddCert (ch : CertChain) (cert : Cert) : CertChain := ⟨ch.chain ++ [cert]⟩

/-- Modelled from the spec: loaded iff there is at least one certificate and
none failed to parse. -/
def IsLoaded (ch : CertChain) : Bool :=
  !ch.chain.isEmpty && ch.chain.all Cert.IsLoaded

/-- Modelled from the spec: the number of certificates; empty result on an
unloaded chain. -/
def Length (ch : CertChain) : Nat := if ch.IsLoaded then ch.chain.length else 0

/-- Modelled from the spec: for every adjacent pair the issuer of the first
is the subject of the second; false for an unloaded chain. -/
def IsValidIssuerChain (ch : CertChain) : Bool :=
  ch.IsLoaded && adjacent Cert.IsIssuedBy ch.chain

/-- Modelled from the spec: additionally every certificate's signature
verifies under the public key of the next; false for an unloaded chain. -/
def IsValidSignatureChain (lib : X509Library) (ch : CertChain) : Bool :=
  ch.IsLoaded && adjacent (Cert.IsSignedBy lib) ch.chain

end CertChain

/-- Modelled from the spec: class `ProtoCertChain` of `cert.h`, the chain of
a precertificate submission; it has the semantics of `CertChain`, read with
the first certificate as the precertificate and the second as its issuer. -/
structure ProtoCertChain where
  toChain : CertChain
  deriving DecidableEq, Repr

namespace ProtoCertChain

/-- Modelled from the spec: construction from a PEM bundle, as for
`CertChain`. -/
def ofPem (lib : X509Library) (pem : PemText) : ProtoCertChain :=
  ⟨CertChain.ofPem lib pem⟩

/-- As `CertChain.IsLoaded`. -/
def IsLoaded (ch : ProtoCertChain) : Bool := ch.toChain.IsLoaded

/-- As `CertChain.Length`. -/
def Length (ch : ProtoCertChain) : Nat := ch.toChain.Length

/-- As `CertChain.IsValidIssuerChain`. -/
def IsValidIssuerChain (ch : ProtoCertChain) : Bool := ch.toChain.IsValidIssuerChain

/-- As `CertChain.IsValidSignatureChain`. -/
def IsValidSignatureChain (lib : X509Library) (ch : ProtoCertChain) : Bool :=
  ch.toChain.IsValidSignatureChain lib

/-- Modelled from the spec: total length minus the two leading certificates
(precertificate and its issuer); `cert_test.cc` expects 0 for a chain of
two, with or without the precertificate markers. -/
def IntermediateLength (ch : ProtoCertChain) : Nat := ch.Length - 2

/-- Modelled from the spec: true iff the chain is loaded, has length at least
two, the first certificate carries the poison extension as a critical
extension, and the second carries the CT extended-key-usage marker. -/
def IsWellFormed (lib : X509Library) (ch : ProtoCertChain) : Bool :=
  ch.IsLoaded && decide (2 ≤ ch.Length) &&
    match ch.toChain.chain with
    | first :: second :: _ =>
      first.HasExtension lib.kPoisonExtensionOID
        && first.IsCriticalExtension lib.kPoisonExtensionOID
        && second.HasExtendedKeyUsage lib.kCtExtendedKeyUsageOID
    | _ => false

end ProtoCertChain

namespace Demo

/-- Stand-in for `ca-cert.pem`: a self-issued authority. -/
def caX509 : X509 :=
  { subject := [10], issuer := [10], publicKey := [110], signature := [110, 10],
    extensions := [([2, 5, 29, 35], false), ([2, 5, 29, 19], true)],
    extendedKeyUsage := [] }

/-- Stand-in for `test-cert.pem`: issued by the authority. -/
def leafX509 : X509 :=
  { subject := [20], issuer := [10], publicKey := [120], signature := [110, 20],
    extensions := [([2, 5, 29, 35], false), ([2, 5, 29, 19], false)],
    extendedKeyUsage := [] }

/-- Stand-in for `ca-proto-cert.pem`: a precertificate issuer, issued by the
authority and carrying the CT extended-key-usage marker. -/
def caProtoX509 : X509 :=
  { subject := [30], issuer := [10], publicKey := [130], signature := [110, 30],
    extensions := [([2, 5, 29, 37], false)],
    extendedKeyUsage := [[1, 2, 3, 4]] }

/-- Stand-in for `test-proto-cert.pem`: a precertificate with the critical
poison extension, issued by the precertificate issuer. -/
def protoX509 : X509 :=
  { subject := [40], issuer := [30], publicKey := [140], signature := [130, 40],
    extensions := [([1, 2, 3, 1], true)],
    extendedKeyUsage := [] }

/-- A library that knows the four certificates by their block and verifies a
signature made of the signing key followed by the subject. -/
def lib : X509Library :=
  { decode := fun block =>
      if block = [1] then some leafX509
      else if block = [2] then some caX509
      else if block = [3] then some caProtoX509
      else if block = [4] then some protoX509
      else none
    verify := fun a b => decide (a.signature = b.publicKey ++ a.subject)
    kPoisonExtensionOID := [1, 2, 3, 1]
    kCtExtendedKeyUsageOID := [1, 2, 3, 4] }

/-- The PEM text of `test-cert.pem`. -/
def leaf_pem : PemText := [[1]]

/-- The PEM text of `ca-cert.pem`. -/
def ca_pem : PemText := [[2]]

/-- The PEM text of `ca-proto-cert.pem`. -/
def ca_protocert_pem : PemText := [[3]]

/-- The PEM text of `test-proto-cert.pem`. -/
def protocert_pem : PemText := [[4]]

end Demo


namespace Run

variable {σ : Type}

/-- The number of `LookupEntry` calls made during the call. -/
def lookups (r : Run σ) : Nat := (r.calls.filter Call.isLookup).length

/-- The number of `WriteEntry` calls made during the call. -/
def writes (r : Run σ) : Nat := (r.calls.filter Call.isWrite).length

end Run

namespace Demo

/-- The receipt of the certificate with leaf bytes `[1, 2]`, taken at the
first clock reading. -/
def receipt : SignedCertificateTimestamp :=
  { timestamp := some 1000,
    entry := some { type := CertificateEntry.EntryType.X509_ENTRY,
                    leaf_certificate := [1, 2], intermediates := [[3]] },
    signature := some [232, 1, 2] }

/-- A store that holds that receipt as a finalized record. -/
def worldLogged : World MemoryStore :=
  { db := [(digest [1, 2], true, SerializeToString receipt)], hasher := ⟨[5]⟩, ticks := 1 }

end Demo

/-! ## The paths through `QueueEntry` -/

namespace FrontendSigner

variable {σ : Type}

/-- The key is the digest of the leaf bytes, and the hasher is left afresh. -/
theorem ComputePrimaryKey_eq (c : Collaborators σ) (h : Sha256Hasher)
    (e : CertificateEntry) :
    ComputePrimaryKey c h e = (c.Sha256 e.leaf_certificate, ⟨[]⟩) := by
  simp [ComputePrimaryKey, Sha256Hasher.Final, Sha256Hasher.Update, Sha256Hasher.Reset]

/-- The path of a submission the handler rejects. -/
theorem QueueEntry_rejected (c : Collaborators σ) (w : World σ)
    (type : CertificateEntry.EntryType) (data : bstring)
    (sct : Option SignedCertificateTimestamp)
    (hfail : (c.ProcessSubmission data (CertificateEntry.ofType type)).1
      ≠ SubmissionHandler.SubmitResult.OK) :
    QueueEntry c w type data sct =
      { result := GetSubmitError (c.ProcessSubmission data (CertificateEntry.ofType type)).1,
        sct := sct, world := w, calls := [] } := by
  simp [QueueEntry, hfail]

/-- The path of a validated submission whose key is empty. -/
theorem QueueEntry_key_empty (c : Collaborators σ) (w : World σ)
    (type : CertificateEntry.EntryType) (data : bstring)
    (sct : Option SignedCertificateTimestamp) (e : CertificateEntry)
    (hv : c.ProcessSubmission data (CertificateEntry.ofType type)
      = (SubmissionHandler.SubmitResult.OK, e))
    (hkey : c.Sha256 e.leaf_certificate = []) :
    QueueEntry c w type data sct =
      { result := .error .primary_key_empty, sct := sct,
        world := { w with hasher := ⟨[]⟩ }, calls := [] } := by
  simp [QueueEntry, hv, ComputePrimaryKey_eq, hkey]

/-- The path of a validated submission the store already holds. -/
theorem QueueEntry_found (c : Collaborators σ) (w : World σ)
    (type : CertificateEntry.EntryType) (data : bstring)
    (sct : Option SignedCertificateTimestamp) (e : CertificateEntry)
    (st : LogDB.Status) (record : bstring)
    (hv : c.ProcessSubmission data (CertificateEntry.ofType type)
      = (SubmissionHandler.SubmitResult.OK, e))
    (hkey : c.Sha256 e.leaf_certificate ≠ [])
    (hlook : c.LookupEntry w.db (c.Sha256 e.leaf_certificate) LogDB.Lookup.ANY
      = (st, record))
    (hst : st = LogDB.Status.LOGGED ∨ st = LogDB.Status.PENDING) :
    QueueEntry c w type data sct =
      { result := .ok (if st = LogDB.Status.LOGGED then SubmitResult.LOGGED
                       else SubmitResult.PENDING),
        sct := sct.map (fun _ => (c.ParseFromString record).2),
        world := { w with hasher := ⟨[]⟩ },
        calls := [Call.LookupEntry (c.Sha256 e.leaf_certificate)] } := by
  rcases hst with h | h <;> subst h <;>
    simp [QueueEntry, hv, ComputePrimaryKey_eq, hkey, hlook]

/-- The path of a validated submission for which the lookup answers with a
status that is none of `LOGGED`, `PENDING`, `NOT_FOUND`. -/
theorem QueueEntry_bad_lookup (c : Collaborators σ) (w : World σ)
    (type : CertificateEntry.EntryType) (data : bstring)
    (sct : Option SignedCertificateTimestamp) (e : CertificateEntry)
    (hv : c.ProcessSubmission data (CertificateEntry.ofType type)
      = (SubmissionHandler.SubmitResult.OK, e))
    (hkey : c.Sha256 e.leaf_certificate ≠ [])
    (h1 : (c.LookupEntry w.db (c.Sha256 e.leaf_certificate) LogDB.Lookup.ANY).1
      ≠ LogDB.Status.LOGGED)
    (h2 : (c.LookupEntry w.db (c.Sha256 e.leaf_certificate) LogDB.Lookup.ANY).1
      ≠ LogDB.Status.PENDING)
    (h3 : (c.LookupEntry w.db (c.Sha256 e.leaf_certificate) LogDB.Lookup.ANY).1
      ≠ LogDB.Status.NOT_FOUND) :
    QueueEntry c w type data sct =
      { result := .error .lookup_status, sct := sct,
        world := { w with hasher := ⟨[]⟩ },
        calls := [Call.LookupEntry (c.Sha256 e.leaf_certificate)] } := by
  simp [QueueEntry, hv, ComputePrimaryKey_eq, hkey, h1, h2, h3]

/-- The path of a validated, absent submission the signer refuses. -/
theorem QueueEntry_sign_failed (c : Collaborators σ) (w : World σ)
    (type : CertificateEntry.EntryType) (data : bstring)
    (sct : Option SignedCertificateTimestamp) (e : CertificateEntry)
    (hv : c.ProcessSubmission data (CertificateEntry.ofType type)
      = (SubmissionHandler.SubmitResult.OK, e))
    (hkey : c.Sha256 e.leaf_certificate ≠ [])
    (hlook : (c.LookupEntry w.db (c.Sha256 e.leaf_certificate) LogDB.Lookup.ANY).1
      = LogDB.Status.NOT_FOUND)
    (hsign : (c.SignCertificateTimestamp
      { timestamp := some (toUInt64 (c.TimeInMilliseconds w.ticks)),
        entry := some e, signature := none }).1 ≠ LogSigner.SignResult.OK) :
    QueueEntry c w type data sct =
      { result := .error .sign_result, sct := sct,
        world := { w with hasher := ⟨[]⟩, ticks := w.ticks + 1 },
        calls := [Call.LookupEntry (c.Sha256 e.leaf_certificate),
          Call.TimeInMilliseconds,
          Call.SignCertificateTimestamp
            { timestamp := some (toUInt64 (c.TimeInMilliseconds w.ticks)),
              entry := some e, signature := none }] } := by
  simp [QueueEntry, hv, ComputePrimaryKey_eq, hkey, hlook, TimestampAndSign,
    SignedCertificateTimestamp.empty, hsign]

/-- The path of a validated, absent submission that is signed and handed to
the store: the outcome depends on the acknowledgment of the write. -/
theorem QueueEntry_written (c : Collaborators σ) (w : World σ)
    (type : CertificateEntry.EntryType) (data : bstring)
    (sct : Option SignedCertificateTimestamp) (e : CertificateEntry)
    (hv : c.ProcessSubmission data (CertificateEntry.ofType type)
      = (SubmissionHandler.SubmitResult.OK, e))
    (hkey : c.Sha256 e.leaf_certificate ≠ [])
    (hlook : (c.LookupEntry w.db (c.Sha256 e.leaf_certificate) LogDB.Lookup.ANY).1
      = LogDB.Status.NOT_FOUND)
    (hsign : (c.SignCertificateTimestamp
      { timestamp := some (toUInt64 (c.TimeInMilliseconds w.ticks)),
        entry := some e, signature := none }).1 = LogSigner.SignResult.OK) :
    QueueEntry c w type data sct =
      { result :=
          if (c.WriteEntry w.db (c.Sha256 e.leaf_certificate)
              (c.SerializeToString (freshReceipt c w e))).1 = LogDB.Status.NEW
          then .ok SubmitResult.NEW else .error .write_status,
        sct :=
          if (c.WriteEntry w.db (c.Sha256 e.leaf_certificate)
              (c.SerializeToString (freshReceipt c w e))).1 = LogDB.Status.NEW
          then sct.map (fun _ => freshReceipt c w e) else sct,
        world :=
          { db := (c.WriteEntry w.db (c.Sha256 e.leaf_certificate)
              (c.SerializeToString (freshReceipt c w e))).2,
            hasher := ⟨[]⟩, ticks := w.ticks + 1 },
        calls := [Call.LookupEntry (c.Sha256 e.leaf_certificate),
          Call.TimeInMilliseconds,
          Call.SignCertificateTimestamp
            { timestamp := some (toUInt64 (c.TimeInMilliseconds w.ticks)),
              entry := some e, signature := none },
          Call.WriteEntry (c.Sha256 e.leaf_certificate)
            (c.SerializeToString (freshReceipt c w e))] } := by
  by_cases hw : (c.WriteEntry w.db (c.Sha256 e.leaf_certificate)
      (c.SerializeToString (freshReceipt c w e))).1 = LogDB.Status.NEW
  · simp only [freshReceipt] at hw
    simp [QueueEntry, hv, ComputePrimaryKey_eq, hkey, hlook, TimestampAndSign,
      SignedCertificateTimestamp.empty, hsign, freshReceipt, hw]
  · simp only [freshReceipt] at hw
    simp [QueueEntry, hv, ComputePrimaryKey_eq, hkey, hlook, TimestampAndSign,
      SignedCertificateTimestamp.empty, hsign, freshReceipt, hw]

end FrontendSigner

/-! ## The submission state machine -/

namespace FrontendSigner

variable {σ : Type}

/-- C2: when the handler reports a failure, `QueueEntry` returns exactly what
`GetSubmitError` assigns to that failure: `EMPTY_SUBMISSION` and
`INVALID_PEM_ENCODED_CHAIN` give `BAD_PEM_FORMAT`, `SUBMISSION_TOO_LONG` gives
`SUBMISSION_TOO_LONG` and nothing else does, `INVALID_CERTIFICATE_CHAIN` and
`UNKNOWN_ROOT` give `CERTIFICATE_VERIFY_ERROR`, `PRECERT_CHAIN_NOT_WELL_FORMED`
gives `PRECERT_CHAIN_NOT_WELL_FORMED`; no failure yields `UNKNOWN_ERROR`,
`NEW`, `LOGGED` or `PENDING`, and the `assert(false)` of the default branch is
reached by none of the six named failures (only by a further enumerator). -/
theorem QueueEntry_validation_failure (c : Collaborators σ) (w : World σ)
    (type : CertificateEntry.EntryType) (data : bstring)
    (sct : Option SignedCertificateTimestamp) (failure : SubmissionHandler.SubmitResult)
    (hres : (c.ProcessSubmission data (CertificateEntry.ofType type)).1 = failure)
    (hfail : failure ≠ SubmissionHandler.SubmitResult.OK) :
    (QueueEntry c w type data sct).result = GetSubmitError failure
    ∧ (failure = SubmissionHandler.SubmitResult.EMPTY_SUBMISSION
        ∨ failure = SubmissionHandler.SubmitResult.INVALID_PEM_ENCODED_CHAIN →
      (QueueEntry c w type data sct).result = .ok SubmitResult.BAD_PEM_FORMAT)
    ∧ (failure = SubmissionHandler.SubmitResult.SUBMISSION_TOO_LONG ↔
      (QueueEntry c w type data sct).result = .ok SubmitResult.SUBMISSION_TOO_LONG)
    ∧ (failure = SubmissionHandler.SubmitResult.INVALID_CERTIFICATE_CHAIN
        ∨ failure = SubmissionHandler.SubmitResult.UNKNOWN_ROOT →
      (QueueEntry c w type data sct).result = .ok SubmitResult.CERTIFICATE_VERIFY_ERROR)
    ∧ (failure = SubmissionHandler.SubmitResult.PRECERT_CHAIN_NOT_WELL_FORMED →
      (QueueEntry c w type data sct).result
        = .ok SubmitResult.PRECERT_CHAIN_NOT_WELL_FORMED)
    ∧ (QueueEntry c w type data sct).result ≠ .ok SubmitResult.UNKNOWN_ERROR
    ∧ (QueueEntry c w type data sct).result ≠ .ok SubmitResult.NEW
    ∧ (QueueEntry c w type data sct).result ≠ .ok SubmitResult.LOGGED
    ∧ (QueueEntry c w type data sct).result ≠ .ok SubmitResult.PENDING
    ∧ ((∃ site, (QueueEntry c w type data sct).result = .error site) ↔
        ∃ code, failure = SubmissionHandler.SubmitResult.other code) := by
  subst hres
  rw [QueueEntry_rejected c w type data sct hfail]
  generalize (c.ProcessSubmission data (CertificateEntry.ofType type)).1 = failure at hfail
  cases failure <;> simp [GetSubmitError] at hfail ⊢

/-- C2 at a concrete input: an empty submission to the concrete handler. -/
theorem QueueEntry_validation_failure_witness :
    (QueueEntry Demo.collab Demo.world0 CertificateEntry.EntryType.X509_ENTRY []
        (some Demo.stale)).result = .ok SubmitResult.BAD_PEM_FORMAT :=
  ((QueueEntry_validation_failure Demo.collab Demo.world0
      CertificateEntry.EntryType.X509_ENTRY [] (some Demo.stale)
      SubmissionHandler.SubmitResult.EMPTY_SUBMISSION (by decide) (by decide)).2.1)
    (Or.inl rfl)

/-- C4: for a validated submission whose primary key the store reports as
existing, `QueueEntry` returns `LOGGED` for lookup status `LOGGED` and
`PENDING` for `PENDING`; the caller's receipt (when one is passed) becomes
exactly the parse of the bytes the lookup returned; the only collaborator
call recorded is that one lookup, so neither the signer nor the clock is
used, and store and clock are as before. -/
theorem QueueEntry_existing (c : Collaborators σ) (w : World σ)
    (type : CertificateEntry.EntryType) (data : bstring)
    (sct : Option SignedCertificateTimestamp) (e : CertificateEntry)
    (st : LogDB.Status) (record : bstring)
    (hv : c.ProcessSubmission data (CertificateEntry.ofType type)
      = (SubmissionHandler.SubmitResult.OK, e))
    (hkey : (ComputePrimaryKey c w.hasher e).1 ≠ [])
    (hlook : c.LookupEntry w.db (ComputePrimaryKey c w.hasher e).1 LogDB.Lookup.ANY
      = (st, record))
    (hst : st = LogDB.Status.LOGGED ∨ st = LogDB.Status.PENDING) :
    (st = LogDB.Status.LOGGED →
      (QueueEntry c w type data sct).result = .ok SubmitResult.LOGGED)
    ∧ (st = LogDB.Status.PENDING →
      (QueueEntry c w type data sct).result = .ok SubmitResult.PENDING)
    ∧ (QueueEntry c w type data sct).sct
        = sct.map (fun _ => (c.ParseFromString record).2)
    ∧ (QueueEntry c w type data sct).calls
        = [Call.LookupEntry (ComputePrimaryKey c w.hasher e).1]
    ∧ (QueueEntry c w type data sct).calls.any Call.isSign = false
    ∧ (QueueEntry c w type data sct).calls.any Call.isClock = false
    ∧ (QueueEntry c w type data sct).world.ticks = w.ticks
    ∧ (QueueEntry c w type data sct).world.db = w.db := by
  rw [ComputePrimaryKey_eq] at hkey hlook
  rw [QueueEntry_found c w type data sct e st record hv hkey hlook hst,
    ComputePrimaryKey_eq]
  rcases hst with h | h <;> subst h <;> simp [Call.isSign, Call.isClock]

/-- C5: for a validated submission whose primary key the store reports as
`NOT_FOUND`, with the signer accepting the message and the write acknowledged
as `NEW`, `QueueEntry` returns `NEW`; the receipt handed back is the signer's
output on the message holding the handler's entry and the one clock reading
taken before signing, it carries that entry and that timestamp, and the bytes
written under the primary key are the serialization of that very receipt.
The calls made are: lookup, clock, signer, write, once each. -/
theorem QueueEntry_new (c : Collaborators σ) (w : World σ)
    (type : CertificateEntry.EntryType) (data : bstring)
    (s : SignedCertificateTimestamp) (e : CertificateEntry)
    (hv : c.ProcessSubmission data (CertificateEntry.ofType type)
      = (SubmissionHandler.SubmitResult.OK, e))
    (hkey : (ComputePrimaryKey c w.hasher e).1 ≠ [])
    (hlook : (c.LookupEntry w.db (ComputePrimaryKey c w.hasher e).1 LogDB.Lookup.ANY).1
      = LogDB.Status.NOT_FOUND)
    (hsign : SignerAccepts c w e)
    (hwrite : (c.WriteEntry w.db (ComputePrimaryKey c w.hasher e).1
      (c.SerializeToString (freshReceipt c w e))).1 = LogDB.Status.NEW) :
    (QueueEntry c w type data (some s)).result = .ok SubmitResult.NEW
    ∧ ∃ receipt : SignedCertificateTimestamp,
        (QueueEntry c w type data (some s)).sct = some receipt
        ∧ receipt = (c.SignCertificateTimestamp
            { timestamp := some (toUInt64 (c.TimeInMilliseconds w.ticks)),
              entry := some e, signature := none }).2
        ∧ receipt.entry = some e
        ∧ receipt.timestamp = some (toUInt64 (c.TimeInMilliseconds w.ticks))
        ∧ (QueueEntry c w type data (some s)).calls =
            [Call.LookupEntry (ComputePrimaryKey c w.hasher e).1,
             Call.TimeInMilliseconds,
             Call.SignCertificateTimestamp
               { timestamp := some (toUInt64 (c.TimeInMilliseconds w.ticks)),
                 entry := some e, signature := none },
             Call.WriteEntry (ComputePrimaryKey c w.hasher e).1
               (c.SerializeToString receipt)]
        ∧ (QueueEntry c w type data (some s)).world.ticks = w.ticks + 1
        ∧ (QueueEntry c w type data (some s)).world.db =
            (c.WriteEntry w.db (ComputePrimaryKey c w.hasher e).1
              (c.SerializeToString receipt)).2 := by
  rw [ComputePrimaryKey_eq] at hkey hlook hwrite
  obtain ⟨hok, hts, hen⟩ := hsign
  rw [QueueEntry_written c w type data (some s) e hv hkey hlook hok, ComputePrimaryKey_eq]
  refine ⟨by simp [hwrite], freshReceipt c w e, by simp [hwrite], rfl, hen, hts, rfl, rfl, rfl⟩

/-- C6: the primary key is the digest of the leaf certificate bytes and of
nothing else: entries with the same leaf bytes get the same key, whatever
their type and chain tail and whatever the shared hasher absorbed before. -/
theorem ComputePrimaryKey_leaf_only (c : Collaborators σ) (h1 h2 : Sha256Hasher)
    (e1 e2 : CertificateEntry)
    (hleaf : e1.leaf_certificate = e2.leaf_certificate) :
    (ComputePrimaryKey c h1 e1).1 = c.Sha256 e1.leaf_certificate
    ∧ (ComputePrimaryKey c h1 e1).1 = (ComputePrimaryKey c h2 e2).1 := by
  simp [ComputePrimaryKey_eq, hleaf]

/-- C6 at a concrete input: an ordinary and a precertificate entry with the
same leaf bytes and different tails, hashed after different histories. -/
theorem ComputePrimaryKey_leaf_only_witness :
    (ComputePrimaryKey Demo.collab ⟨[7, 7, 7]⟩
        { type := CertificateEntry.EntryType.X509_ENTRY, leaf_certificate := [1, 2],
          intermediates := [[3]] }).1 = Demo.digest [1, 2]
    ∧ (ComputePrimaryKey Demo.collab ⟨[7, 7, 7]⟩
        { type := CertificateEntry.EntryType.X509_ENTRY, leaf_certificate := [1, 2],
          intermediates := [[3]] }).1
      = (ComputePrimaryKey Demo.collab ⟨[]⟩
        { type := CertificateEntry.EntryType.PRECERT_ENTRY, leaf_certificate := [1, 2],
          intermediates := [[4], [5]] }).1 :=
  ComputePrimaryKey_leaf_only Demo.collab ⟨[7, 7, 7]⟩ ⟨[]⟩
    { type := CertificateEntry.EntryType.X509_ENTRY, leaf_certificate := [1, 2],
      intermediates := [[3]] }
    { type := CertificateEntry.EntryType.PRECERT_ENTRY, leaf_certificate := [1, 2],
      intermediates := [[4], [5]] }
    rfl

/-- C4 at a concrete input: the store holds the leaf as a finalized record;
a resubmission with another chain tail gets `LOGGED` and the stored
receipt. -/
theorem QueueEntry_existing_witness :
    (QueueEntry Demo.collab Demo.worldLogged CertificateEntry.EntryType.X509_ENTRY
        [1, 2, 9] (some Demo.stale)).result = .ok SubmitResult.LOGGED
    ∧ (QueueEntry Demo.collab Demo.worldLogged CertificateEntry.EntryType.X509_ENTRY
        [1, 2, 9] (some Demo.stale)).sct = some Demo.receipt :=
  have h := QueueEntry_existing Demo.collab Demo.worldLogged
    CertificateEntry.EntryType.X509_ENTRY [1, 2, 9] (some Demo.stale)
    { type := CertificateEntry.EntryType.X509_ENTRY, leaf_certificate := [1, 2],
      intermediates := [[9]] }
    LogDB.Status.LOGGED (Demo.SerializeToString Demo.receipt)
    (by decide) (by decide) (by decide) (Or.inl rfl)
  ⟨h.1 rfl, h.2.2.1.trans (by decide)⟩

/-- C5 at a concrete input: a first submission to the empty store. -/
theorem QueueEntry_new_witness :
    (QueueEntry Demo.collab Demo.world0 CertificateEntry.EntryType.X509_ENTRY
        [1, 2, 3] (some Demo.stale)).result = .ok SubmitResult.NEW :=
  (QueueEntry_new Demo.collab Demo.world0 CertificateEntry.EntryType.X509_ENTRY
    [1, 2, 3] Demo.stale
    { type := CertificateEntry.EntryType.X509_ENTRY, leaf_certificate := [1, 2],
      intermediates := [[3]] }
    (by decide) (by decide) (by decide) ⟨by decide, by decide, by decide⟩ (by decide)).1

/-- A validated submission never comes back as `UNKNOWN_ERROR`, and the
store is looked up at most once and written at most once. -/
theorem QueueEntry_validated_bounds (c : Collaborators σ) (w : World σ)
    (type : CertificateEntry.EntryType) (data : bstring)
    (sct : Option SignedCertificateTimestamp) (e : CertificateEntry)
    (hv : c.ProcessSubmission data (CertificateEntry.ofType type)
      = (SubmissionHandler.SubmitResult.OK, e)) :
    (QueueEntry c w type data sct).result ≠ .ok SubmitResult.UNKNOWN_ERROR
    ∧ (QueueEntry c w type data sct).lookups ≤ 1
    ∧ (QueueEntry c w type data sct).writes ≤ 1 := by
  by_cases hkey : c.Sha256 e.leaf_certificate = []
  · rw [QueueEntry_key_empty c w type data sct e hv hkey]
    simp [Run.lookups, Run.writes]
  by_cases h1 : (c.LookupEntry w.db (c.Sha256 e.leaf_certificate) LogDB.Lookup.ANY).1
      = LogDB.Status.LOGGED
  · rw [QueueEntry_found c w type data sct e _ _ hv hkey (Prod.ext h1 rfl) (Or.inl rfl)]
    simp [Run.lookups, Run.writes, Call.isLookup, Call.isWrite]
  by_cases h2 : (c.LookupEntry w.db (c.Sha256 e.leaf_certificate) LogDB.Lookup.ANY).1
      = LogDB.Status.PENDING
  · rw [QueueEntry_found c w type data sct e _ _ hv hkey (Prod.ext h2 rfl) (Or.inr rfl)]
    simp [Run.lookups, Run.writes, Call.isLookup, Call.isWrite]
  by_cases h3 : (c.LookupEntry w.db (c.Sha256 e.leaf_certificate) LogDB.Lookup.ANY).1
      = LogDB.Status.NOT_FOUND
  · by_cases hs : (c.SignCertificateTimestamp
        { timestamp := some (toUInt64 (c.TimeInMilliseconds w.ticks)),
          entry := some e, signature := none }).1 = LogSigner.SignResult.OK
    · rw [QueueEntry_written c w type data sct e hv hkey h3 hs]
      by_cases hw : (c.WriteEntry w.db (c.Sha256 e.leaf_certificate)
          (c.SerializeToString (freshReceipt c w e))).1 = LogDB.Status.NEW
      · simp [Run.lookups, Run.writes, Call.isLookup, Call.isWrite, hw]
      · simp [Run.lookups, Run.writes, Call.isLookup, Call.isWrite, hw]
    · rw [QueueEntry_sign_failed c w type data sct e hv hkey h3 hs]
      simp [Run.lookups, Run.writes, Call.isLookup, Call.isWrite]
  · rw [QueueEntry_bad_lookup c w type data sct e hv hkey h1 h2 h3]
    simp [Run.lookups, Run.writes, Call.isLookup, Call.isWrite]

/-- C8, as stated, fails.  With the concrete handler accepting `[1, 2, 3]`:
a store whose lookup answers with a status outside `NOT_FOUND`, `PENDING`,
`LOGGED` stops the call at `assert(status == LogDB::NOT_FOUND)`, and a store
that refuses the write stops it at `assert(status == LogDB::NEW)`; in neither
case is `UNKNOWN_ERROR` returned. -/
theorem QueueEntry_contract_violation_counterexample :
    (Demo.collabBadLookup.ProcessSubmission [1, 2, 3]
        (CertificateEntry.ofType CertificateEntry.EntryType.X509_ENTRY)).1
      = SubmissionHandler.SubmitResult.OK
    ∧ (Demo.collabBadLookup.LookupEntry Demo.world0.db (Demo.digest [1, 2])
        LogDB.Lookup.ANY).1 = LogDB.Status.other 0
    ∧ (QueueEntry Demo.collabBadLookup Demo.world0 CertificateEntry.EntryType.X509_ENTRY
        [1, 2, 3] (some Demo.stale)).result = .error Abort.lookup_status
    ∧ (QueueEntry Demo.collabBadLookup Demo.world0 CertificateEntry.EntryType.X509_ENTRY
        [1, 2, 3] (some Demo.stale)).result ≠ .ok SubmitResult.UNKNOWN_ERROR
    ∧ (Demo.collabBadWrite.LookupEntry Demo.world0.db (Demo.digest [1, 2])
        LogDB.Lookup.ANY).1 = LogDB.Status.NOT_FOUND
    ∧ (Demo.collabBadWrite.WriteEntry Demo.world0.db (Demo.digest [1, 2])
        (Demo.SerializeToString Demo.receipt)).1 = LogDB.Status.LOGGED
    ∧ (QueueEntry Demo.collabBadWrite Demo.world0 CertificateEntry.EntryType.X509_ENTRY
        [1, 2, 3] (some Demo.stale)).result = .error Abort.write_status
    ∧ (QueueEntry Demo.collabBadWrite Demo.world0 CertificateEntry.EntryType.X509_ENTRY
        [1, 2, 3] (some Demo.stale)).result ≠ .ok SubmitResult.UNKNOWN_ERROR := by
  decide

/-- C8, amended: for a validated submission, a store that violates its
contract makes the call stop at an assertion instead of returning
`UNKNOWN_ERROR`.  If the lookup answers with a status other than `NOT_FOUND`,
`PENDING` or `LOGGED`, the call stops at `assert(status == LogDB::NOT_FOUND)`
after that single lookup, with the caller's receipt and the store untouched.
If the lookup answers `NOT_FOUND`, the signer succeeds and the write is
acknowledged with anything other than `NEW`, the call stops at
`assert(status == LogDB::NEW)` after one lookup and one write, with the
caller's receipt untouched.  No validated submission returns `UNKNOWN_ERROR`,
and none looks up or writes more than once. -/
theorem QueueEntry_contract_violation (c : Collaborators σ) (w : World σ)
    (type : CertificateEntry.EntryType) (data : bstring)
    (sct : Option SignedCertificateTimestamp) (e : CertificateEntry)
    (hv : c.ProcessSubmission data (CertificateEntry.ofType type)
      = (SubmissionHandler.SubmitResult.OK, e))
    (hkey : (ComputePrimaryKey c w.hasher e).1 ≠ []) :
    ((c.LookupEntry w.db (ComputePrimaryKey c w.hasher e).1 LogDB.Lookup.ANY).1
          ≠ LogDB.Status.NOT_FOUND →
      (c.LookupEntry w.db (ComputePrimaryKey c w.hasher e).1 LogDB.Lookup.ANY).1
          ≠ LogDB.Status.PENDING →
      (c.LookupEntry w.db (ComputePrimaryKey c w.hasher e).1 LogDB.Lookup.ANY).1
          ≠ LogDB.Status.LOGGED →
      (QueueEntry c w type data sct).result = .error Abort.lookup_status
      ∧ (QueueEntry c w type data sct).calls
          = [Call.LookupEntry (ComputePrimaryKey c w.hasher e).1]
      ∧ (QueueEntry c w type data sct).sct = sct
      ∧ (QueueEntry c w type data sct).world.db = w.db)
    ∧ ((c.LookupEntry w.db (ComputePrimaryKey c w.hasher e).1 LogDB.Lookup.ANY).1
          = LogDB.Status.NOT_FOUND →
      (c.SignCertificateTimestamp
          { timestamp := some (toUInt64 (c.TimeInMilliseconds w.ticks)),
            entry := some e, signature := none }).1 = LogSigner.SignResult.OK →
      (c.WriteEntry w.db (ComputePrimaryKey c w.hasher e).1
          (c.SerializeToString (freshReceipt c w e))).1 ≠ LogDB.Status.NEW →
      (QueueEntry c w type data sct).result = .error Abort.write_status
      ∧ (QueueEntry c w type data sct).lookups = 1
      ∧ (QueueEntry c w type data sct).writes = 1
      ∧ (QueueEntry c w type data sct).sct = sct)
    ∧ (QueueEntry c w type data sct).result ≠ .ok SubmitResult.UNKNOWN_ERROR
    ∧ (QueueEntry c w type data sct).lookups ≤ 1
    ∧ (QueueEntry c w type data sct).writes ≤ 1 := by
  rw [ComputePrimaryKey_eq] at hkey
  rw [ComputePrimaryKey_eq]
  refine ⟨?_, ?_, QueueEntry_validated_bounds c w type data sct e hv⟩
  · intro h3 h2 h1
    rw [QueueEntry_bad_lookup c w type data sct e hv hkey h1 h2 h3]
    simp
  · intro h3 hs hw
    rw [QueueEntry_written c w type data sct e hv hkey h3 hs]
    simp [Run.lookups, Run.writes, Call.isLookup, Call.isWrite, hw]

/-- C8 amended, at concrete inputs: the two contract-violating stores. -/
theorem QueueEntry_contract_violation_witness :
    (QueueEntry Demo.collabBadLookup Demo.world0 CertificateEntry.EntryType.X509_ENTRY
        [1, 2, 3] (some Demo.stale)).result = .error Abort.lookup_status
    ∧ (QueueEntry Demo.collabBadWrite Demo.world0 CertificateEntry.EntryType.X509_ENTRY
        [1, 2, 3] (some Demo.stale)).result = .error Abort.write_status :=
  ⟨((QueueEntry_contract_violation Demo.collabBadLookup Demo.world0
      CertificateEntry.EntryType.X509_ENTRY [1, 2, 3] (some Demo.stale)
      { type := CertificateEntry.EntryType.X509_ENTRY, leaf_certificate := [1, 2],
        intermediates := [[3]] }
      (by decide) (by decide)).1 (by decide) (by decide) (by decide)).1,
   ((QueueEntry_contract_violation Demo.collabBadWrite Demo.world0
      CertificateEntry.EntryType.X509_ENTRY [1, 2, 3] (some Demo.stale)
      { type := CertificateEntry.EntryType.X509_ENTRY, leaf_certificate := [1, 2],
        intermediates := [[3]] }
      (by decide) (by decide)).2.1 (by decide) (by decide) (by decide)).1⟩

end FrontendSigner

/-! ## The in-memory store keeps the store contract -/

/-- What the in-memory store holds under a key after a write under a key
that was absent. -/
theorem MemoryStore.get_cons (db : MemoryStore) (key other : bstring) (v : Bool × bstring) :
    MemoryStore.get ((key, v) :: db) other
      = if key = other then some v else MemoryStore.get db other := by
  simp [MemoryStore.get]

/-- The concrete collaborators satisfy the store contract. -/
theorem Demo.collab_contract : StoreContract Demo.collab := by
  constructor
  · intro db key record h
    cases hg : MemoryStore.get db key with
    | none => simp [Demo.collab, MemoryStore.WriteEntry, hg]
    | some v =>
      cases hf : v.1 <;>
        simp [Demo.collab, MemoryStore.LookupEntry, MemoryStore.statusOf, hg, hf] at h
  · intro db key record h
    cases hg : MemoryStore.get db key with
    | none =>
      refine ⟨LogDB.Status.PENDING, Or.inr rfl, ?_⟩
      simp [Demo.collab, MemoryStore.WriteEntry, MemoryStore.LookupEntry, hg,
        MemoryStore.get_cons, MemoryStore.statusOf]
    | some v =>
      cases hf : v.1 <;>
        simp [Demo.collab, MemoryStore.WriteEntry, MemoryStore.statusOf, hg, hf] at h
  · intro db key record other hne
    cases hg : MemoryStore.get db key with
    | none =>
      have hne2 : ¬ key = other := fun h => hne h.symm
      simp [Demo.collab, MemoryStore.WriteEntry, MemoryStore.LookupEntry, hg,
        MemoryStore.get_cons, hne2]
    | some v =>
      simp [Demo.collab, MemoryStore.WriteEntry, hg]

namespace FrontendSigner

variable {σ : Type}

/-- C1: two consecutive submissions that the handler validates with the same
leaf certificate bytes, against a store that holds no record under the
leaf's primary key, acknowledges the write as `NEW`, keeps what was written
and reports it on the next lookup as `LOGGED` or `PENDING` (the signer
succeeding, and parsing undoing the serialization of the receipt): the first
`QueueEntry` returns `NEW`, the second returns `LOGGED` or `PENDING`, and the
receipt handed back by the second call equals the one handed back by the
first. -/
theorem QueueEntry_resubmit (c : Collaborators σ) (w : World σ)
    (type1 type2 : CertificateEntry.EntryType) (data1 data2 : bstring)
    (s1 s2 : SignedCertificateTimestamp) (e1 e2 : CertificateEntry)
    (hv1 : c.ProcessSubmission data1 (CertificateEntry.ofType type1)
      = (SubmissionHandler.SubmitResult.OK, e1))
    (hv2 : c.ProcessSubmission data2 (CertificateEntry.ofType type2)
      = (SubmissionHandler.SubmitResult.OK, e2))
    (hleaf : e1.leaf_certificate = e2.leaf_certificate)
    (hkey : (ComputePrimaryKey c w.hasher e1).1 ≠ [])
    (hsign : (c.SignCertificateTimestamp
      { timestamp := some (toUInt64 (c.TimeInMilliseconds w.ticks)),
        entry := some e1, signature := none }).1 = LogSigner.SignResult.OK)
    (habsent : (c.LookupEntry w.db (ComputePrimaryKey c w.hasher e1).1
      LogDB.Lookup.ANY).1 = LogDB.Status.NOT_FOUND)
    (hwrite : (c.WriteEntry w.db (ComputePrimaryKey c w.hasher e1).1
      (c.SerializeToString (freshReceipt c w e1))).1 = LogDB.Status.NEW)
    (hkeeps : ∃ st, (st = LogDB.Status.LOGGED ∨ st = LogDB.Status.PENDING) ∧
      c.LookupEntry
        (c.WriteEntry w.db (ComputePrimaryKey c w.hasher e1).1
          (c.SerializeToString (freshReceipt c w e1))).2
        (ComputePrimaryKey c w.hasher e1).1 LogDB.Lookup.ANY
      = (st, c.SerializeToString (freshReceipt c w e1)))
    (hparse : (c.ParseFromString (c.SerializeToString (freshReceipt c w e1))).2
      = freshReceipt c w e1) :
    (QueueEntry c w type1 data1 (some s1)).result = .ok SubmitResult.NEW
    ∧ ((QueueEntry c (QueueEntry c w type1 data1 (some s1)).world type2 data2
          (some s2)).result = .ok SubmitResult.LOGGED
      ∨ (QueueEntry c (QueueEntry c w type1 data1 (some s1)).world type2 data2
          (some s2)).result = .ok SubmitResult.PENDING)
    ∧ (QueueEntry c (QueueEntry c w type1 data1 (some s1)).world type2 data2
          (some s2)).sct = (QueueEntry c w type1 data1 (some s1)).sct := by
  rw [ComputePrimaryKey_eq] at hkey habsent hwrite hkeeps
  have hw := hwrite
  obtain ⟨st, hst, hback⟩ := hkeeps
  have h1 := QueueEntry_written c w type1 data1 (some s1) e1 hv1 hkey habsent hsign
  simp only [hw, if_true] at h1
  rw [h1]
  have hkey2 : c.Sha256 e2.leaf_certificate ≠ [] := hleaf ▸ hkey
  have hback2 : c.LookupEntry
      (c.WriteEntry w.db (c.Sha256 e1.leaf_certificate)
        (c.SerializeToString (freshReceipt c w e1))).2
      (c.Sha256 e2.leaf_certificate) LogDB.Lookup.ANY
      = (st, c.SerializeToString (freshReceipt c w e1)) := by
    rw [← hleaf]; exact hback
  rw [QueueEntry_found c _ type2 data2 (some s2) e2 st _ hv2 hkey2 hback2 hst]
  refine ⟨rfl, ?_, ?_⟩
  · rcases hst with h | h <;> subst h <;> simp
  · simp [hparse]

/-- C1 at a concrete input: the leaf `[1, 2]` submitted to the empty store
as an ordinary certificate, then again with another chain tail. -/
theorem QueueEntry_resubmit_witness :
    (QueueEntry Demo.collab Demo.world0 CertificateEntry.EntryType.X509_ENTRY
        [1, 2, 3] (some Demo.stale)).result = .ok SubmitResult.NEW
    ∧ ((QueueEntry Demo.collab
          (QueueEntry Demo.collab Demo.world0 CertificateEntry.EntryType.X509_ENTRY
            [1, 2, 3] (some Demo.stale)).world
          CertificateEntry.EntryType.X509_ENTRY [1, 2, 4]
          (some SignedCertificateTimestamp.empty)).result = .ok SubmitResult.LOGGED
      ∨ (QueueEntry Demo.collab
          (QueueEntry Demo.collab Demo.world0 CertificateEntry.EntryType.X509_ENTRY
            [1, 2, 3] (some Demo.stale)).world
          CertificateEntry.EntryType.X509_ENTRY [1, 2, 4]
          (some SignedCertificateTimestamp.empty)).result = .ok SubmitResult.PENDING)
    ∧ (QueueEntry Demo.collab
          (QueueEntry Demo.collab Demo.world0 CertificateEntry.EntryType.X509_ENTRY
            [1, 2, 3] (some Demo.stale)).world
          CertificateEntry.EntryType.X509_ENTRY [1, 2, 4]
          (some SignedCertificateTimestamp.empty)).sct
        = (QueueEntry Demo.collab Demo.world0 CertificateEntry.EntryType.X509_ENTRY
            [1, 2, 3] (some Demo.stale)).sct :=
  QueueEntry_resubmit Demo.collab Demo.world0
    CertificateEntry.EntryType.X509_ENTRY CertificateEntry.EntryType.X509_ENTRY
    [1, 2, 3] [1, 2, 4] Demo.stale SignedCertificateTimestamp.empty
    { type := CertificateEntry.EntryType.X509_ENTRY, leaf_certificate := [1, 2],
      intermediates := [[3]] }
    { type := CertificateEntry.EntryType.X509_ENTRY, leaf_certificate := [1, 2],
      intermediates := [[4]] }
    (by decide) (by decide) rfl (by decide) (by decide) (by decide) (by decide)
    ⟨LogDB.Status.PENDING, Or.inr rfl, by decide⟩ (by decide)

/-- C7: two validated submissions with different leaf certificate bytes on
which the digest does not collide, against a store that keeps its contract
and holds neither (the signer succeeding both times): the primary keys are
distinct, both calls of `QueueEntry` return `NEW`, the lookup of the second
key is the same after the first write as before it, and afterwards the store
holds, under each key, the serialization of the receipt handed back for it. -/
theorem QueueEntry_distinct_leaves (c : Collaborators σ) (w : World σ)
    (type1 type2 : CertificateEntry.EntryType) (data1 data2 : bstring)
    (s1 s2 : SignedCertificateTimestamp) (e1 e2 : CertificateEntry)
    (hv1 : c.ProcessSubmission data1 (CertificateEntry.ofType type1)
      = (SubmissionHandler.SubmitResult.OK, e1))
    (hv2 : c.ProcessSubmission data2 (CertificateEntry.ofType type2)
      = (SubmissionHandler.SubmitResult.OK, e2))
    (hne : e1.leaf_certificate ≠ e2.leaf_certificate)
    (hfree : c.Sha256 e1.leaf_certificate = c.Sha256 e2.leaf_certificate →
      e1.leaf_certificate = e2.leaf_certificate)
    (hkey1 : c.Sha256 e1.leaf_certificate ≠ [])
    (hkey2 : c.Sha256 e2.leaf_certificate ≠ [])
    (hsign1 : (c.SignCertificateTimestamp
      { timestamp := some (toUInt64 (c.TimeInMilliseconds w.ticks)),
        entry := some e1, signature := none }).1 = LogSigner.SignResult.OK)
    (hsign2 : (c.SignCertificateTimestamp
      { timestamp := some (toUInt64 (c.TimeInMilliseconds (w.ticks + 1))),
        entry := some e2, signature := none }).1 = LogSigner.SignResult.OK)
    (hdb : StoreContract c)
    (habsent1 : (c.LookupEntry w.db (c.Sha256 e1.leaf_certificate)
      LogDB.Lookup.ANY).1 = LogDB.Status.NOT_FOUND)
    (habsent2 : (c.LookupEntry w.db (c.Sha256 e2.leaf_certificate)
      LogDB.Lookup.ANY).1 = LogDB.Status.NOT_FOUND) :
    (∀ h1 h2 : Sha256Hasher,
      (ComputePrimaryKey c h1 e1).1 ≠ (ComputePrimaryKey c h2 e2).1)
    ∧ (QueueEntry c w type1 data1 (some s1)).result = .ok SubmitResult.NEW
    ∧ (QueueEntry c (QueueEntry c w type1 data1 (some s1)).world type2 data2
          (some s2)).result = .ok SubmitResult.NEW
    ∧ c.LookupEntry (QueueEntry c w type1 data1 (some s1)).world.db
          (c.Sha256 e2.leaf_certificate) LogDB.Lookup.ANY
        = c.LookupEntry w.db (c.Sha256 e2.leaf_certificate) LogDB.Lookup.ANY
    ∧ ∃ r1 r2 : SignedCertificateTimestamp, ∃ st1 st2 : LogDB.Status,
        (QueueEntry c w type1 data1 (some s1)).sct = some r1
        ∧ (QueueEntry c (QueueEntry c w type1 data1 (some s1)).world type2 data2
            (some s2)).sct = some r2
        ∧ (st1 = LogDB.Status.LOGGED ∨ st1 = LogDB.Status.PENDING)
        ∧ (st2 = LogDB.Status.LOGGED ∨ st2 = LogDB.Status.PENDING)
        ∧ c.LookupEntry
            (QueueEntry c (QueueEntry c w type1 data1 (some s1)).world type2 data2
              (some s2)).world.db
            (c.Sha256 e1.leaf_certificate) LogDB.Lookup.ANY
          = (st1, c.SerializeToString r1)
        ∧ c.LookupEntry
            (QueueEntry c (QueueEntry c w type1 data1 (some s1)).world type2 data2
              (some s2)).world.db
            (c.Sha256 e2.leaf_certificate) LogDB.Lookup.ANY
          = (st2, c.SerializeToString r2) := by
  have hk : c.Sha256 e1.leaf_certificate ≠ c.Sha256 e2.leaf_certificate :=
    fun h => hne (hfree h)
  -- the first call
  have hw1 := hdb.accept w.db (c.Sha256 e1.leaf_certificate)
    (c.SerializeToString (freshReceipt c w e1)) habsent1
  have h1 := QueueEntry_written c w type1 data1 (some s1) e1 hv1 hkey1 habsent1 hsign1
  simp only [hw1, if_true] at h1
  -- the state it leaves
  obtain ⟨w1, hw1def⟩ : ∃ w1 : World σ, w1 =
      { db := (c.WriteEntry w.db (c.Sha256 e1.leaf_certificate)
          (c.SerializeToString (freshReceipt c w e1))).2,
        hasher := ⟨[]⟩, ticks := w.ticks + 1 } := ⟨_, rfl⟩
  rw [← hw1def] at h1
  have hdb1 : w1.db = (c.WriteEntry w.db (c.Sha256 e1.leaf_certificate)
      (c.SerializeToString (freshReceipt c w e1))).2 := by rw [hw1def]
  have hticks1 : w1.ticks = w.ticks + 1 := by rw [hw1def]
  have hframe1 : c.LookupEntry w1.db (c.Sha256 e2.leaf_certificate) LogDB.Lookup.ANY
      = c.LookupEntry w.db (c.Sha256 e2.leaf_certificate) LogDB.Lookup.ANY := by
    rw [hdb1]
    exact hdb.frame _ _ _ _ (fun h => hk h.symm)
  -- the second call
  have habsent2b : (c.LookupEntry w1.db (c.Sha256 e2.leaf_certificate)
      LogDB.Lookup.ANY).1 = LogDB.Status.NOT_FOUND := by rw [hframe1]; exact habsent2
  have hsign2b : (c.SignCertificateTimestamp
      { timestamp := some (toUInt64 (c.TimeInMilliseconds w1.ticks)),
        entry := some e2, signature := none }).1 = LogSigner.SignResult.OK := by
    rw [hticks1]; exact hsign2
  have hw2 := hdb.accept w1.db (c.Sha256 e2.leaf_certificate)
    (c.SerializeToString (freshReceipt c w1 e2)) habsent2b
  have h2 := QueueEntry_written c w1 type2 data2 (some s2) e2 hv2 hkey2 habsent2b hsign2b
  simp only [hw2, if_true] at h2
  -- what the store holds afterwards
  obtain ⟨st1, hst1, hback1⟩ := hdb.readback w.db (c.Sha256 e1.leaf_certificate)
    (c.SerializeToString (freshReceipt c w e1)) hw1
  obtain ⟨st2, hst2, hback2⟩ := hdb.readback w1.db (c.Sha256 e2.leaf_certificate)
    (c.SerializeToString (freshReceipt c w1 e2)) hw2
  have hframe2 := hdb.frame w1.db (c.Sha256 e2.leaf_certificate)
    (c.SerializeToString (freshReceipt c w1 e2)) (c.Sha256 e1.leaf_certificate) hk
  rw [hdb1, hback1] at hframe2
  have hworld1 : (QueueEntry c w type1 data1 (some s1)).world = w1 := by rw [h1]
  have hworld2 : (QueueEntry c w1 type2 data2 (some s2)).world.db
      = (c.WriteEntry w1.db (c.Sha256 e2.leaf_certificate)
          (c.SerializeToString (freshReceipt c w1 e2))).2 := by rw [h2]
  rw [hworld1, hworld2]
  refine ⟨?_, by rw [h1], by rw [h2], hframe1, freshReceipt c w e1, freshReceipt c w1 e2,
    st1, st2, by rw [h1]; rfl, by rw [h2]; rfl, hst1, hst2, ?_, hback2⟩
  · intro a b
    simpa [ComputePrimaryKey_eq] using hk
  · rw [← hdb1] at hframe2
    exact hframe2

/-- C7 at a concrete input: the leaves `[1, 2]` and `[5, 6]` submitted one
after the other to the empty store. -/
theorem QueueEntry_distinct_leaves_witness :
    (QueueEntry Demo.collab Demo.world0 CertificateEntry.EntryType.X509_ENTRY
        [1, 2, 3] (some Demo.stale)).result = .ok SubmitResult.NEW
    ∧ (QueueEntry Demo.collab
        (QueueEntry Demo.collab Demo.world0 CertificateEntry.EntryType.X509_ENTRY
          [1, 2, 3] (some Demo.stale)).world
        CertificateEntry.EntryType.X509_ENTRY [5, 6, 3] (some Demo.stale)).result
      = .ok SubmitResult.NEW :=
  have h := QueueEntry_distinct_leaves Demo.collab Demo.world0
    CertificateEntry.EntryType.X509_ENTRY CertificateEntry.EntryType.X509_ENTRY
    [1, 2, 3] [5, 6, 3] Demo.stale Demo.stale
    { type := CertificateEntry.EntryType.X509_ENTRY, leaf_certificate := [1, 2],
      intermediates := [[3]] }
    { type := CertificateEntry.EntryType.X509_ENTRY, leaf_certificate := [5, 6],
      intermediates := [[3]] }
    (by decide) (by decide) (by decide) (by decide) (by decide) (by decide)
    (by decide) (by decide) Demo.collab_contract (by decide) (by decide)
  ⟨h.2.1, h.2.2.1⟩

/-- C3: in every call of `QueueEntry`, on every store state, the store is
looked up at most once and written at most once.  When the handler reports a
failure no collaborator call is made, the store is as before and the caller's
receipt is untouched.  A write is made only on the way to `NEW` (the call
returns `NEW`, or stops at `assert(status == LogDB::NEW)`; with a store that
keeps its contract it returns `NEW`).  When any other outcome is returned, in
particular `LOGGED` or `PENDING`, no write was made and the store is as
before.  When `NEW` is returned, the single write is under the primary key,
which the lookup had reported absent, and the store afterwards is the result
of that write; with a store that keeps its contract the key now holds the
written record, every other key looks up as before, and so every record that
existed before the call is still there unchanged. -/
theorem QueueEntry_store_effect (c : Collaborators σ) (w : World σ)
    (type : CertificateEntry.EntryType) (data : bstring)
    (sct : Option SignedCertificateTimestamp) :
    (QueueEntry c w type data sct).lookups ≤ 1
    ∧ (QueueEntry c w type data sct).writes ≤ 1
    ∧ ((c.ProcessSubmission data (CertificateEntry.ofType type)).1
          ≠ SubmissionHandler.SubmitResult.OK →
        (QueueEntry c w type data sct).calls = []
        ∧ (QueueEntry c w type data sct).world.db = w.db
        ∧ (QueueEntry c w type data sct).sct = sct)
    ∧ ((QueueEntry c w type data sct).writes = 1 →
        (QueueEntry c w type data sct).result = .ok SubmitResult.NEW
        ∨ (QueueEntry c w type data sct).result = .error Abort.write_status)
    ∧ (StoreContract c → (QueueEntry c w type data sct).writes = 1 →
        (QueueEntry c w type data sct).result = .ok SubmitResult.NEW)
    ∧ (∀ o, (QueueEntry c w type data sct).result = .ok o → o ≠ SubmitResult.NEW →
        (QueueEntry c w type data sct).writes = 0
        ∧ (QueueEntry c w type data sct).world.db = w.db)
    ∧ ((QueueEntry c w type data sct).result = .ok SubmitResult.NEW →
        ∃ record : bstring,
          (QueueEntry c w type data sct).calls.filter Call.isWrite
            = [Call.WriteEntry (ComputePrimaryKey c w.hasher
                (c.ProcessSubmission data (CertificateEntry.ofType type)).2).1 record]
          ∧ (c.LookupEntry w.db (ComputePrimaryKey c w.hasher
                (c.ProcessSubmission data (CertificateEntry.ofType type)).2).1
              LogDB.Lookup.ANY).1 = LogDB.Status.NOT_FOUND
          ∧ (QueueEntry c w type data sct).world.db
            = (c.WriteEntry w.db (ComputePrimaryKey c w.hasher
                (c.ProcessSubmission data (CertificateEntry.ofType type)).2).1 record).2
          ∧ (StoreContract c →
              (∃ st, (st = LogDB.Status.LOGGED ∨ st = LogDB.Status.PENDING)
                ∧ c.LookupEntry (QueueEntry c w type data sct).world.db
                    (ComputePrimaryKey c w.hasher
                      (c.ProcessSubmission data (CertificateEntry.ofType type)).2).1
                    LogDB.Lookup.ANY = (st, record))
              ∧ (∀ other, other ≠ (ComputePrimaryKey c w.hasher
                    (c.ProcessSubmission data (CertificateEntry.ofType type)).2).1 →
                  c.LookupEntry (QueueEntry c w type data sct).world.db other
                      LogDB.Lookup.ANY
                    = c.LookupEntry w.db other LogDB.Lookup.ANY)
              ∧ (∀ other,
                  (c.LookupEntry w.db other LogDB.Lookup.ANY).1
                    ≠ LogDB.Status.NOT_FOUND →
                  c.LookupEntry (QueueEntry c w type data sct).world.db other
                      LogDB.Lookup.ANY
                    = c.LookupEntry w.db other LogDB.Lookup.ANY))) := by
  by_cases hfail : (c.ProcessSubmission data (CertificateEntry.ofType type)).1
      = SubmissionHandler.SubmitResult.OK
  swap
  · rw [QueueEntry_rejected c w type data sct hfail]
    have hne : ∀ o, GetSubmitError
        (c.ProcessSubmission data (CertificateEntry.ofType type)).1 = .ok o →
        o ≠ SubmitResult.NEW := by
      intro o
      cases (c.ProcessSubmission data (CertificateEntry.ofType type)).1 <;>
        simp [GetSubmitError] <;> intro h <;> subst h <;> simp
    refine ⟨by simp [Run.lookups], by simp [Run.writes], by simp, by simp [Run.writes],
      by simp [Run.writes], by simp [Run.writes], ?_⟩
    intro h
    exact absurd rfl (hne _ h)
  obtain ⟨e, he⟩ : ∃ e, e = (c.ProcessSubmission data (CertificateEntry.ofType type)).2 :=
    ⟨_, rfl⟩
  have hv : c.ProcessSubmission data (CertificateEntry.ofType type)
      = (SubmissionHandler.SubmitResult.OK, e) := Prod.ext hfail he.symm
  rw [← he, ComputePrimaryKey_eq]
  by_cases hkey : c.Sha256 e.leaf_certificate = []
  · rw [QueueEntry_key_empty c w type data sct e hv hkey]
    simp [Run.lookups, Run.writes, hfail]
  by_cases h1 : (c.LookupEntry w.db (c.Sha256 e.leaf_certificate) LogDB.Lookup.ANY).1
      = LogDB.Status.LOGGED
  · rw [QueueEntry_found c w type data sct e _ _ hv hkey (Prod.ext h1 rfl) (Or.inl rfl)]
    simp [Run.lookups, Run.writes, Call.isLookup, Call.isWrite, hfail]
  by_cases h2 : (c.LookupEntry w.db (c.Sha256 e.leaf_certificate) LogDB.Lookup.ANY).1
      = LogDB.Status.PENDING
  · rw [QueueEntry_found c w type data sct e _ _ hv hkey (Prod.ext h2 rfl) (Or.inr rfl)]
    simp [Run.lookups, Run.writes, Call.isLookup, Call.isWrite, hfail]
  by_cases h3 : (c.LookupEntry w.db (c.Sha256 e.leaf_certificate) LogDB.Lookup.ANY).1
      = LogDB.Status.NOT_FOUND
  swap
  · rw [QueueEntry_bad_lookup c w type data sct e hv hkey h1 h2 h3]
    simp [Run.lookups, Run.writes, Call.isLookup, Call.isWrite, hfail]
  by_cases hs : (c.SignCertificateTimestamp
      { timestamp := some (toUInt64 (c.TimeInMilliseconds w.ticks)),
        entry := some e, signature := none }).1 = LogSigner.SignResult.OK
  swap
  · rw [QueueEntry_sign_failed c w type data sct e hv hkey h3 hs]
    simp [Run.lookups, Run.writes, Call.isLookup, Call.isWrite, hfail]
  rw [QueueEntry_written c w type data sct e hv hkey h3 hs]
  by_cases hw : (c.WriteEntry w.db (c.Sha256 e.leaf_certificate)
      (c.SerializeToString (freshReceipt c w e))).1 = LogDB.Status.NEW
  swap
  · have hacc : ¬ StoreContract c := fun hdb => hw (hdb.accept _ _ _ h3)
    simp [Run.lookups, Run.writes, Call.isLookup, Call.isWrite, hfail, hw, hacc]
  simp only [hw, if_true]
  refine ⟨by simp [Run.lookups, Call.isLookup], by simp [Run.writes, Call.isWrite],
    by simp [hfail], by simp, by simp, by simp, ?_⟩
  intro _
  refine ⟨c.SerializeToString (freshReceipt c w e), by simp [Call.isWrite], h3, rfl, ?_⟩
  intro hdb
  refine ⟨hdb.readback _ _ _ hw, fun other hne => hdb.frame _ _ _ other hne, ?_⟩
  intro other hother
  refine hdb.frame _ _ _ other ?_
  intro heq
  rw [heq] at hother
  exact hother h3

/-- C3 at a concrete input: the first submission of a leaf to a store that
keeps its contract writes once and returns `NEW`. -/
theorem QueueEntry_store_effect_witness :
    (QueueEntry Demo.collab Demo.world0 CertificateEntry.EntryType.X509_ENTRY
        [1, 2, 3] (some Demo.stale)).writes = 1
    ∧ (QueueEntry Demo.collab Demo.world0 CertificateEntry.EntryType.X509_ENTRY
        [1, 2, 3] (some Demo.stale)).result = .ok SubmitResult.NEW
    ∧ (QueueEntry Demo.collab Demo.worldLogged CertificateEntry.EntryType.X509_ENTRY
        [1, 2, 9] (some Demo.stale)).world.db = Demo.worldLogged.db :=
  ⟨by decide,
   (QueueEntry_store_effect Demo.collab Demo.world0 CertificateEntry.EntryType.X509_ENTRY
      [1, 2, 3] (some Demo.stale)).2.2.2.2.1 Demo.collab_contract (by decide),
   ((QueueEntry_store_effect Demo.collab Demo.worldLogged
      CertificateEntry.EntryType.X509_ENTRY [1, 2, 9] (some Demo.stale)).2.2.2.2.2.1
      SubmitResult.LOGGED (by decide) (by decide)).2⟩

end FrontendSigner

/-! ## Certificate chains -/

/-- C9: for loaded certificates A and B with A issued and signed by B and B
not issued by A: the chain built from A's PEM followed by `AddCert(B)` is
loaded, has length 2 and satisfies `IsValidIssuerChain` and
`IsValidSignatureChain`; the chain built in the reverse order is loaded, has
length 2 and satisfies neither; and every loaded chain of length 1 satisfies
both. -/
theorem CertChain.issuer_order (lib : X509Library) (a b : bstring)
    (hA : (Cert.Load lib [a]).IsLoaded = true)
    (hB : (Cert.Load lib [b]).IsLoaded = true)
    (hissued : (Cert.Load lib [a]).IsIssuedBy (Cert.Load lib [b]) = true)
    (hsigned : (Cert.Load lib [a]).IsSignedBy lib (Cert.Load lib [b]) = true)
    (hnot : (Cert.Load lib [b]).IsIssuedBy (Cert.Load lib [a]) = false) :
    (((CertChain.ofPem lib [a]).AddCert (Cert.Load lib [b])).IsLoaded = true
      ∧ ((CertChain.ofPem lib [a]).AddCert (Cert.Load lib [b])).Length = 2
      ∧ ((CertChain.ofPem lib [a]).AddCert (Cert.Load lib [b])).IsValidIssuerChain = true
      ∧ ((CertChain.ofPem lib [a]).AddCert (Cert.Load lib [b])).IsValidSignatureChain lib
          = true)
    ∧ (((CertChain.ofPem lib [b]).AddCert (Cert.Load lib [a])).IsLoaded = true
      ∧ ((CertChain.ofPem lib [b]).AddCert (Cert.Load lib [a])).Length = 2
      ∧ ((CertChain.ofPem lib [b]).AddCert (Cert.Load lib [a])).IsValidIssuerChain = false
      ∧ ((CertChain.ofPem lib [b]).AddCert (Cert.Load lib [a])).IsValidSignatureChain lib
          = false)
    ∧ (∀ ch : CertChain, ch.IsLoaded = true → ch.Length = 1 →
        ch.IsValidIssuerChain = true ∧ ch.IsValidSignatureChain lib = true) := by
  refine ⟨?_, ?_, ?_⟩
  · simp [CertChain.ofPem, CertChain.AddCert, CertChain.IsLoaded, CertChain.Length,
      CertChain.IsValidIssuerChain, CertChain.IsValidSignatureChain, CertChain.adjacent,
      hA, hB, hissued, hsigned]
  · simp [CertChain.ofPem, CertChain.AddCert, CertChain.IsLoaded, CertChain.Length,
      CertChain.IsValidIssuerChain, CertChain.IsValidSignatureChain, CertChain.adjacent,
      hA, hB, hnot, Cert.IsSignedBy]
  · intro ch hl hlen
    have hone : ch.chain.length = 1 := by
      simpa [CertChain.Length, hl] using hlen
    obtain ⟨x, hx⟩ := List.length_eq_one.mp hone
    simp [CertChain.IsValidIssuerChain, CertChain.IsValidSignatureChain, hl, hx,
      CertChain.adjacent]

/-- C9 at a concrete input: the leaf and authority stand-ins of the test. -/
theorem CertChain.issuer_order_witness :
    ((CertChain.ofPem Demo.lib Demo.leaf_pem).AddCert
        (Cert.Load Demo.lib Demo.ca_pem)).IsValidSignatureChain Demo.lib = true
    ∧ ((CertChain.ofPem Demo.lib Demo.ca_pem).AddCert
        (Cert.Load Demo.lib Demo.leaf_pem)).IsValidIssuerChain = false :=
  have h := CertChain.issuer_order Demo.lib [1] [2] (by decide) (by decide) (by decide)
    (by decide) (by decide)
  ⟨h.1.2.2.2, h.2.1.2.2.1⟩

/-- C10: well-formedness of a precertificate chain does not depend on its
issuer or signature validity.  A loaded chain of two certificates has length
2 and `IntermediateLength` 0, and is well-formed exactly when the first
carries the poison extension, marked critical, and the second carries the CT
extended-key-usage marker; so a chain of two ordinary certificates (no
poison, no marker) is not well-formed even when both validity predicates
hold; and no chain of length 1 is well-formed. -/
theorem ProtoCertChain.well_formed_iff (lib : X509Library) (ch : ProtoCertChain)
    (first second : Cert)
    (hchain : ch.toChain.chain = [first, second])
    (hloaded : ch.IsLoaded = true) :
    ch.Length = 2
    ∧ ch.IntermediateLength = 0
    ∧ (ch.IsWellFormed lib = true ↔
        (first.HasExtension lib.kPoisonExtensionOID = true
          ∧ first.IsCriticalExtension lib.kPoisonExtensionOID = true
          ∧ second.HasExtendedKeyUsage lib.kCtExtendedKeyUsageOID = true))
    ∧ (first.HasExtension lib.kPoisonExtensionOID = false →
        second.HasExtendedKeyUsage lib.kCtExtendedKeyUsageOID = false →
        ch.IsValidIssuerChain = true → ch.IsValidSignatureChain lib = true →
        ch.IsWellFormed lib = false)
    ∧ (∀ one : ProtoCertChain, one.Length = 1 → one.IsWellFormed lib = false) := by
  have hlen : ch.Length = 2 := by
    have h : ch.toChain.IsLoaded = true := hloaded
    simp [ProtoCertChain.Length, CertChain.Length, h, hchain]
  refine ⟨hlen, by simp [ProtoCertChain.IntermediateLength, hlen], ?_, ?_, ?_⟩
  · simp [ProtoCertChain.IsWellFormed, hloaded, hlen, hchain, and_assoc]
  · intro hp _ _ _
    simp [ProtoCertChain.IsWellFormed, hchain, hp]
  · intro one hone
    simp [ProtoCertChain.IsWellFormed, hone]

/-- C10 at a concrete input: the chain of the ordinary leaf and authority
stand-ins is loaded and valid, and not well-formed. -/
theorem ProtoCertChain.well_formed_iff_witness :
    (ProtoCertChain.ofPem Demo.lib (Demo.leaf_pem ++ Demo.ca_pem)).IsValidIssuerChain = true
    ∧ (ProtoCertChain.ofPem Demo.lib (Demo.leaf_pem ++ Demo.ca_pem)).IsValidSignatureChain
        Demo.lib = true
    ∧ (ProtoCertChain.ofPem Demo.lib (Demo.leaf_pem ++ Demo.ca_pem)).IsWellFormed Demo.lib
        = false :=
  ⟨by decide, by decide,
   (ProtoCertChain.well_formed_iff Demo.lib
      (ProtoCertChain.ofPem Demo.lib (Demo.leaf_pem ++ Demo.ca_pem))
      (Cert.Load Demo.lib Demo.leaf_pem) (Cert.Load Demo.lib Demo.ca_pem)
      (by decide) (by decide)).2.2.2.1 (by decide) (by decide) (by decide) (by decide)⟩
